import Mathlib

/-!
Verification of the EdgeX IPC subsystem against its specification.

This file gives a shallow embedding, in Lean 4, of the parts of the EdgeX
kernel sources that the verified properties are about:

* `src/kernel/ipc.c`                    — wait queues, mutexes, semaphores;
* `src/kernel/event.c`                  — events and event sets;
* `src/kernel/ipc/message/message.c`    — message queues;
* `src/kernel/memory/shared_memory.c`   — shared-memory segments.

Conventions of the embedding:

* C structs become Lean structures; the fields keep the C names.  Machine
  integers are modelled as `Nat` (unsigned) or `Int` (signed); conversions
  where a wrap-around can actually occur (the `uint32_t → int32_t` store in
  `create_semaphore`) are made explicit via `toInt32`.  Unsigned decrements
  in the source only occur on counters that the surrounding code keeps
  positive, and are modelled with truncated `Nat` subtraction.
* Linked lists and fixed arrays with a fill count become Lean lists; a
  `waiter_count` / `event_count` / `mapping_count` field of the source is
  represented by the length of the corresponding list.
* Kernel collaborators (`get_current_pid`, `get_current_time_ms`,
  `get_tick_count`, the page mapper) are passed in as explicit arguments;
  `unblock_task` calls are reported as the list of woken PIDs, in call
  order.
* Functions that can suspend the caller return the state at the suspension
  point (the entry phase) separately from the code that runs after the task
  is unblocked (the resume phase), mirroring the code before and after the
  `block_task` call.
* `NULL`-pointer guards of the C API have no counterpart, because the
  embedding passes values, not pointers.
-/

set_option maxRecDepth 8000

namespace EdgeX

/-! ### Common constants (src/kernel/ipc.c, include/edgex/ipc/message.h) -/

/-- IPC object type tags, from the `ipc_object_type_t` enum in ipc.c. -/
def IPC_TYPE_MUTEX : Nat := 1

def IPC_TYPE_SEMAPHORE : Nat := 2

def IPC_TYPE_EVENT : Nat := 3

def IPC_TYPE_EVENT_SET : Nat := 4

def IPC_TYPE_MESSAGE_QUEUE : Nat := 5

def IPC_TYPE_SHARED_MEMORY : Nat := 6

/-- Wait-queue flag for mutex queues (ipc.c). -/
def WAIT_QUEUE_MUTEX : Nat := 1

/-- Wait-queue flag for semaphore queues (ipc.c). -/
def WAIT_QUEUE_SEMAPHORE : Nat := 2

/-- Message priorities, from include/edgex/ipc/message.h. -/
def MSG_PRIORITY_LOW : Nat := 0

def MSG_PRIORITY_NORMAL : Nat := 1

def MSG_PRIORITY_HIGH : Nat := 2

def MSG_PRIORITY_URGENT : Nat := 3

/-- Maximum message payload size (include/edgex/ipc/message.h). -/
def MAX_MESSAGE_SIZE : Nat := 1024

/-- `MESSAGE_FLAG_BLOCKING` is defined as `0` in include/edgex/ipc/message.h,
so `flags & MESSAGE_FLAG_BLOCKING` is always zero and the blocking branches
of `send_message` / `receive_message` are unreachable. -/
def MESSAGE_FLAG_BLOCKING : Nat := 0

/-- `MESSAGE_FLAG_URGENT` aliases `MSG_FLAG_PRIORITY` (bit 2). -/
def MESSAGE_FLAG_URGENT : Nat := 4

/-- Default capacity used by `create_message_queue` when `max_messages = 0`. -/
def DEFAULT_MAX_QUEUE_SIZE : Nat := 64

/-- Maximum events per event set (event.c). -/
def MAX_EVENTS_PER_SET : Nat := 16

/-- Maximum per-segment mappings (memory/shared_memory.c). -/
def MAX_SHM_MAPPINGS : Nat := 32

/-- Maximum shared-memory segments (memory/shared_memory.c). -/
def MAX_SHARED_MEMORY_SEGMENTS : Nat := 128

/-- Maximum shared-memory name length (memory/shared_memory.c). -/
def SHM_NAME_MAX : Nat := 64

/-- Shared-memory creation flags (memory/shared_memory.c). -/
def SHM_FLAG_CREATE : Nat := 1

def SHM_FLAG_EXCL : Nat := 2

def SHM_FLAG_RESIZE : Nat := 4

/-- Page size used by the shared-memory engine. -/
def PAGE_SIZE : Nat := 4096

/-- Conversion of an unsigned 32-bit value to a signed 32-bit value, as the
store `sem->value = initial_value` in `create_semaphore` performs it
(two's-complement wrap). -/
def toInt32 (n : Nat) : Int :=
  if n % 4294967296 < 2147483648 then ((n % 4294967296 : Nat) : Int)
  else ((n % 4294967296 : Nat) : Int) - 4294967296

/-! ### Wait queues (src/kernel/ipc.c lines 44-195)

The `waiter_t` linked list becomes a Lean list whose head is the head of
the C list; `waiter_count` is the length of the list. -/

/-- One entry of a wait queue (`waiter_t` in ipc.c, `event_waiter_t` in
event.c; the two structs have identical fields). -/
structure Waiter where
  pid : Nat
  wait_start_time : Nat
  timeout : Nat
deriving DecidableEq, Repr, Inhabited

/-- Wait queue (`wait_queue_t` in ipc.c).  The `owner` back-pointer of the C
struct is not representable (and never read by the embedded operations). -/
structure WaitQueue where
  name : String
  flags : Nat
  waiters : List Waiter
deriving DecidableEq, Repr, Inhabited

/-- `init_wait_queue` (ipc.c): empty queue with a truncated copy of the name. -/
def init_wait_queue (name : String) (flags : Nat) : WaitQueue :=
  { name := name.take 63, flags := flags, waiters := [] }

/-- `add_waiter` (ipc.c): append the new waiter at the tail of the queue.
`now` stands for `get_tick_count()`. -/
def add_waiter (q : WaitQueue) (pid : Nat) (now : Nat) (timeout : Nat) : WaitQueue :=
  { q with waiters := q.waiters ++ [{ pid := pid, wait_start_time := now, timeout := timeout }] }

/-- Loop body shared by `wake_waiters` (ipc.c), `wake_event_waiters` and
`wake_event_set_waiters` (event.c): walk the list from the head while
`count == 0 || woken < count`, calling `unblock_task` on each visited
waiter and unlinking it.  Returns the unblocked PIDs in call order and the
remaining list. -/
def wakeLoop (count : Nat) (woken : Nat) : List Waiter → List Nat × List Waiter
  | [] => ([], [])
  | w :: rest =>
    if count = 0 ∨ woken < count then
      let r := wakeLoop count (woken + 1) rest
      (w.pid :: r.1, r.2)
    else ([], w :: rest)

/-- `wake_waiters` (ipc.c): wake up to `count` waiters (`count = 0` wakes
all), in queue order. -/
def wake_waiters (q : WaitQueue) (count : Nat) : List Nat × WaitQueue :=
  let r := wakeLoop count 0 q.waiters
  (r.1, { q with waiters := r.2 })

/-! ### Mutexes (src/kernel/ipc.c lines 62-420) -/

/-- `struct mutex` (ipc.c).  The `ipc_object_header_t` fields that the
mutex code reads or writes (`type`, `name`, `ref_count`) are inlined;
`mtype` is the header's `type` tag (0 for a free pool slot). -/
structure Mutex where
  mtype : Nat
  name : String
  ref_count : Nat
  owner : Nat
  lock_count : Nat
  wait_queue : WaitQueue
deriving DecidableEq, Repr, Inhabited

/-- `create_mutex` (ipc.c), for a successfully allocated pool slot. -/
def create_mutex (name : String) : Mutex :=
  { mtype := IPC_TYPE_MUTEX, name := name.take 63, ref_count := 1,
    owner := 0, lock_count := 0,
    wait_queue := init_wait_queue name WAIT_QUEUE_MUTEX }

/-- Result of `memset(mutex, 0, sizeof(struct mutex))` in `destroy_mutex`. -/
def clearedMutex : Mutex :=
  { mtype := 0, name := "", ref_count := 0, owner := 0, lock_count := 0,
    wait_queue := { name := "", flags := 0, waiters := [] } }

/-- `destroy_mutex` (ipc.c lines 293-307): on a valid mutex it
unconditionally wakes every waiter and zeroes the structure; there is no
check of `owner` or of the wait queue, and no `Busy` result (the function
returns `void`).  Result: the new mutex state and the woken PIDs. -/
def destroy_mutex (m : Mutex) : Mutex × List Nat :=
  if m.mtype ≠ IPC_TYPE_MUTEX then (m, [])
  else
    let r := wake_waiters m.wait_queue 0
    (clearedMutex, r.1)

/-- Outcome of the entry phase of a potentially blocking operation. -/
inductive LockOutcome
  | immediate (result : Int) (m : Mutex)
  | blocked (m : Mutex)
deriving DecidableEq, Repr

/-- Entry phase of `mutex_lock` (ipc.c lines 312-344): recursive
re-acquisition, free acquisition, or enqueue-and-block. -/
def mutex_lock (m : Mutex) (current_pid : Nat) (now : Nat) : LockOutcome :=
  if m.mtype ≠ IPC_TYPE_MUTEX then .immediate (-1) m
  else if m.owner = current_pid then
    .immediate 0 { m with lock_count := m.lock_count + 1 }
  else if m.owner = 0 then
    .immediate 0 { m with owner := current_pid, lock_count := 1 }
  else
    .blocked { m with wait_queue := add_waiter m.wait_queue current_pid now 0 }

/-- Resume phase of `mutex_lock` (ipc.c lines 346-350): after being
unblocked the task unconditionally writes itself in as owner. -/
def mutex_lock_resume (m : Mutex) (current_pid : Nat) : Mutex :=
  { m with owner := current_pid, lock_count := 1 }

/-- `mutex_trylock` (ipc.c lines 356-384). -/
def mutex_trylock (m : Mutex) (current_pid : Nat) : Int × Mutex :=
  if m.mtype ≠ IPC_TYPE_MUTEX then (-1, m)
  else if m.owner = current_pid then (0, { m with lock_count := m.lock_count + 1 })
  else if m.owner = 0 then (0, { m with owner := current_pid, lock_count := 1 })
  else (-1, m)

/-- `mutex_unlock` (ipc.c lines 389-420): only the owner may unlock; when
`lock_count` reaches 0 the owner field is set to 0 and then one waiter (if
any) is woken.  Returns the result code, the mutex state at the point
where `mutex_unlock` returns, and the woken PIDs. -/
def mutex_unlock (m : Mutex) (current_pid : Nat) : Int × Mutex × List Nat :=
  if m.mtype ≠ IPC_TYPE_MUTEX then (-1, m, [])
  else if m.owner ≠ current_pid then (-1, m, [])
  else
    let lc := m.lock_count - 1
    if lc = 0 then
      let m1 : Mutex := { m with lock_count := lc, owner := 0 }
      if m1.wait_queue.waiters.length > 0 then
        let r := wake_waiters m1.wait_queue 1
        (0, { m1 with wait_queue := r.2 }, r.1)
      else (0, m1, [])
    else (0, { m with lock_count := lc }, [])

/-! ### Semaphores (src/kernel/ipc.c lines 70-551) -/

/-- `struct semaphore` (ipc.c); `stype` is the header's `type` tag. -/
structure Semaphore where
  stype : Nat
  name : String
  ref_count : Nat
  value : Int
  max_value : Int
  wait_queue : WaitQueue
deriving DecidableEq, Repr, Inhabited

/-- `create_semaphore` (ipc.c lines 425-447), for a successfully allocated
pool slot.  `initial_value` is a `uint32_t` stored into the `int32_t`
field `value`; `max_value` is set to `INT32_MAX`. -/
def create_semaphore (name : String) (initial_value : Nat) : Semaphore :=
  { stype := IPC_TYPE_SEMAPHORE, name := name.take 63, ref_count := 1,
    value := toInt32 initial_value, max_value := 2147483647,
    wait_queue := init_wait_queue name WAIT_QUEUE_SEMAPHORE }

/-- Outcome of the entry phase of `semaphore_wait`: `some r` when the call
returns immediately with `r`, `none` when the task enqueued and blocked. -/
def semaphore_wait (s : Semaphore) (current_pid : Nat) (now : Nat) : Option Int × Semaphore :=
  if s.stype ≠ IPC_TYPE_SEMAPHORE then (some (-1), s)
  else if s.value > 0 then (some 0, { s with value := s.value - 1 })
  else (none, { s with wait_queue := add_waiter s.wait_queue current_pid now 0 })

/-- `semaphore_trywait` (ipc.c lines 504-522). -/
def semaphore_trywait (s : Semaphore) : Int × Semaphore :=
  if s.stype ≠ IPC_TYPE_SEMAPHORE then (-1, s)
  else if s.value > 0 then (0, { s with value := s.value - 1 })
  else (-1, s)

/-- `semaphore_post` (ipc.c lines 527-551): fail at `max_value`; wake one
waiter without incrementing when the queue is non-empty; otherwise
increment.  Returns result, new state, woken PIDs. -/
def semaphore_post (s : Semaphore) : Int × Semaphore × List Nat :=
  if s.stype ≠ IPC_TYPE_SEMAPHORE then (-1, s, [])
  else if s.value = s.max_value then (-1, s, [])
  else if s.wait_queue.waiters.length > 0 then
    let r := wake_waiters s.wait_queue 1
    (0, { s with wait_queue := r.2 }, r.1)
  else (0, { s with value := s.value + 1 }, [])

/-- The semaphore invariant stated by the specification: the value stays
between 0 and `max_value`, and the presence of waiters forces value 0. -/
def SemInv (s : Semaphore) : Prop :=
  0 ≤ s.value ∧ s.value ≤ s.max_value ∧ (s.wait_queue.waiters ≠ [] → s.value = 0)

instance (s : Semaphore) : Decidable (SemInv s) := by
  unfold SemInv; infer_instance

/-! ### Events and event sets (src/kernel/event.c)

The event waiter list is kept with the C list head first.  Note that
`add_event_waiter` pushes at the *head* ("Add to head of list for
simplicity"), unlike `add_waiter` in ipc.c which appends at the tail.
The per-event `mutex` field only serialises access and has no effect on
the sequential semantics, so it is not represented. -/

/-- `EVENT_FLAG_MANUAL_RESET` (event.c). -/
def EVENT_FLAG_MANUAL_RESET : Nat := 1

/-- `EVENT_STATE_NONSIGNALED` (event.c). -/
def EVENT_STATE_NONSIGNALED : Nat := 0

/-- `EVENT_STATE_SIGNALED` (event.c). -/
def EVENT_STATE_SIGNALED : Nat := 1

/-- `struct event` (event.c); `etype` is the header's `type` tag (0 for a
free pool slot, which is also the `Inhabited` default). -/
structure Event where
  etype : Nat := 0
  name : String := ""
  ref_count : Nat := 0
  flags : Nat := 0
  state : Nat := 0
  waiters : List Waiter := []
deriving DecidableEq, Repr, Inhabited

/-- `create_event` (event.c lines 105-136), for a successfully allocated
pool slot and lock: auto-reset, non-signaled, no waiters. -/
def create_event (name : String) : Event :=
  { etype := IPC_TYPE_EVENT, name := name.take 63, ref_count := 1,
    flags := 0, state := EVENT_STATE_NONSIGNALED, waiters := [] }

/-- `add_event_waiter` (event.c lines 178-194): the new waiter is pushed at
the **head** of the list. -/
def add_event_waiter (e : Event) (pid : Nat) (now : Nat) (timeout : Nat) : Event :=
  { e with waiters := { pid := pid, wait_start_time := now, timeout := timeout } :: e.waiters }

/-- `remove_event_waiter` (event.c lines 199-221): unlink the first entry
with the given PID, if any. -/
def remove_event_waiter (e : Event) (pid : Nat) : Event :=
  { e with waiters :=
      match e.waiters.findIdx? (fun w => w.pid = pid) with
      | some i => e.waiters.eraseIdx i
      | none => e.waiters }

/-- `wake_event_waiters` (event.c lines 226-247): same loop as
`wake_waiters`, walking from the list head. -/
def wake_event_waiters (e : Event) (count : Nat) : List Nat × Event :=
  let r := wakeLoop count 0 e.waiters
  (r.1, { e with waiters := r.2 })

/-- Outcome of the entry phase of `event_timedwait`. -/
inductive EventWaitOutcome
  | immediate (result : Int) (e : Event)
  | blocked (e : Event)
deriving DecidableEq, Repr

/-- Millisecond-to-tick conversion at the top of `event_timedwait`
(event.c lines 267-274), with `get_tick_interval_us() = 1000`. -/
def eventTimeoutTicks (timeout_ms : Nat) : Nat :=
  if timeout_ms > 0 then
    let t := timeout_ms * 1000 / 1000
    if t = 0 then 1 else t
  else 0

/-- Entry phase of `event_timedwait` (event.c lines 259-297): an already
signaled event is consumed (auto-reset) or passed through (manual-reset);
otherwise the task enqueues and blocks. -/
def event_timedwait (e : Event) (current_pid : Nat) (timeout_ms : Nat) (now : Nat) :
    EventWaitOutcome :=
  if e.etype ≠ IPC_TYPE_EVENT then .immediate (-1) e
  else if e.state = EVENT_STATE_SIGNALED then
    if e.flags &&& EVENT_FLAG_MANUAL_RESET = 0 then
      .immediate 0 { e with state := EVENT_STATE_NONSIGNALED }
    else .immediate 0 e
  else .blocked (add_event_waiter e current_pid now (eventTimeoutTicks timeout_ms))

/-- Resume phase of `event_timedwait` (event.c lines 299-313): after being
unblocked, a non-signaled state is interpreted as a timeout (result `-1`)
and the task removes itself from the waiter list; a signaled state is
consumed under auto-reset rules and yields result `0`. -/
def event_timedwait_resume (e : Event) (current_pid : Nat) : Int × Event :=
  if e.state ≠ EVENT_STATE_SIGNALED then (-1, remove_event_waiter e current_pid)
  else if e.flags &&& EVENT_FLAG_MANUAL_RESET = 0 then
    (0, { e with state := EVENT_STATE_NONSIGNALED })
  else (0, e)

/-- `event_signal` (event.c lines 319-343): set the state to signaled; for
an auto-reset event with waiters, wake one and clear the state again; for
a manual-reset event wake all.  Returns result, new state, woken PIDs. -/
def event_signal (e : Event) : Int × Event × List Nat :=
  if e.etype ≠ IPC_TYPE_EVENT then (-1, e, [])
  else
    let e1 : Event := { e with state := EVENT_STATE_SIGNALED }
    if e1.flags &&& EVENT_FLAG_MANUAL_RESET = 0 then
      if e1.waiters.length > 0 then
        let r := wake_event_waiters e1 1
        (0, { r.2 with state := EVENT_STATE_NONSIGNALED }, r.1)
      else (0, e1, [])
    else
      let r := wake_event_waiters e1 0
      (0, r.2, r.1)

/-- `struct event_set` (event.c).  The `events` array of `event_t` pointers
is modelled as a list of indices into an event pool (`List Event`);
`event_count` is the list length. -/
structure EventSet where
  estype : Nat := 0
  name : String := ""
  ref_count : Nat := 0
  events : List Nat := []
  waiters : List Waiter := []
deriving DecidableEq, Repr, Inhabited

/-- `create_event_set` (event.c lines 387-422), for a successfully
allocated pool slot and lock. -/
def create_event_set (name : String) : EventSet :=
  { estype := IPC_TYPE_EVENT_SET, name := name.take 63, ref_count := 1,
    events := [], waiters := [] }

/-- `add_event_set_waiter` (event.c lines 556-572): pushed at the head,
like `add_event_waiter`. -/
def add_event_set_waiter (es : EventSet) (pid : Nat) (now : Nat) (timeout : Nat) : EventSet :=
  { es with waiters := { pid := pid, wait_start_time := now, timeout := timeout } :: es.waiters }

/-- `wake_event_set_waiters` (event.c lines 604-625); the `signaled_event`
argument of the C function is never read by its body and is omitted. -/
def wake_event_set_waiters (es : EventSet) (count : Nat) : List Nat × EventSet :=
  let r := wakeLoop count 0 es.waiters
  (r.1, { es with waiters := r.2 })

/-- `event_set_add` (event.c lines 480-511): validate both objects, return
0 without changes when the event is already a member, fail when full,
otherwise append the event and increment its reference count.  The event
pool is passed and returned so the refcount update is visible. -/
def event_set_add (pool : List Event) (es : EventSet) (ev : Nat) : Int × EventSet × List Event :=
  if es.estype ≠ IPC_TYPE_EVENT_SET ∨ (pool.getD ev default).etype ≠ IPC_TYPE_EVENT then
    (-1, es, pool)
  else if ev ∈ es.events then (0, es, pool)
  else if es.events.length ≥ MAX_EVENTS_PER_SET then (-1, es, pool)
  else
    let e := pool.getD ev default
    (0, { es with events := es.events ++ [ev] },
     pool.set ev { e with ref_count := e.ref_count + 1 })

/-! ### Message queues (src/kernel/ipc/message/message.c) -/

/-- One message (`message_t` in include/edgex/ipc/message.h).  The payload
is not inspected by any embedded operation and is represented by an opaque
`Nat` tag so that whole-struct copies (`memcpy`) remain whole-struct
copies. -/
structure Msg where
  id : Nat := 0
  sender : Nat := 0
  receiver : Nat := 0
  mtype : Nat := 0
  priority : Nat := 0
  flags : Nat := 0
  size : Nat := 0
  reply_id : Nat := 0
  timestamp : Nat := 0
  payload : Nat := 0
deriving DecidableEq, Repr, Inhabited

/-- Modelled from the spec: the counting semaphore used by the message
queues (`semaphore_init` / `semaphore_destroy` / the timed
`semaphore_wait` / `semaphore_trywait` / `semaphore_post` family).  No
implementation of this family exists under `src/` — only the declarations
in include/edgex/ipc/semaphore.h and the call sites in message.c — so it
is modelled from spec §4.3: the value stays in `0 ≤ value ≤ max`, `wait`
and `trywait` decrement a positive value, `post` increments below the
maximum and fails with Overflow at the maximum. -/
structure QSem where
  value : Int
  max_value : Int
deriving DecidableEq, Repr, Inhabited

/-- Modelled from the spec: `semaphore_init(sem, value, max_value)`. -/
def qsem_init (value : Nat) (max_value : Nat) : QSem :=
  { value := (value : Int), max_value := (max_value : Int) }

/-- Modelled from the spec: `semaphore_trywait` — decrement or fail. -/
def qsem_trywait (s : QSem) : Int × QSem :=
  if s.value > 0 then (0, { s with value := s.value - 1 }) else (-1, s)

/-- Modelled from the spec: the sequential (no concurrent poster) view of
the timed `semaphore_wait(sem, timeout_ms)`: an available unit is taken
immediately, otherwise the wait can only expire with a timeout. -/
def qsem_timedwait (s : QSem) : Int × QSem :=
  if s.value > 0 then (0, { s with value := s.value - 1 }) else (-110, s)

/-- Modelled from the spec: `semaphore_post` — increment below the
maximum, Overflow at the maximum (no waiters in the sequential view). -/
def qsem_post (s : QSem) : Int × QSem :=
  if s.value < s.max_value then (0, { s with value := s.value + 1 }) else (-1, s)

/-- `struct message_queue` (message.c).  The `messages` circular buffer is
a list of fixed length `max_size`; the global statistics calls
(`update_ipc_stats`) mutate no queue state and are omitted. -/
structure MessageQueue where
  max_size : Nat
  current_size : Nat
  head : Nat
  tail : Nat
  high_priority_count : Nat
  urgent_priority_count : Nat
  messages : List Msg
  msg_available : QSem
  space_available : QSem
  messages_sent : Nat
  messages_received : Nat
  blocked_sends : Nat
  blocked_receives : Nat
  dropped_messages : Nat
  timeouts : Nat
deriving DecidableEq, Repr

/-- Queue state built by `create_message_queue` for capacity `mm` (the
`kmalloc`-ed buffer holds indeterminate bytes, modelled as default
messages). -/
def freshQueue (mm : Nat) : MessageQueue :=
  { max_size := mm, current_size := 0, head := 0, tail := 0,
    high_priority_count := 0, urgent_priority_count := 0,
    messages := List.replicate mm default,
    msg_available := qsem_init 0 mm, space_available := qsem_init mm mm,
    messages_sent := 0, messages_received := 0, blocked_sends := 0,
    blocked_receives := 0, dropped_messages := 0, timeouts := 0 }

/-- `create_message_queue` (message.c lines 77-181), for successful
allocations and below the global queue limit: reject an over-long name,
substitute the default capacity for 0. -/
def create_message_queue (name : String) (max_messages : Nat) : Option MessageQueue :=
  if name.length ≥ 64 then none
  else some (freshQueue (if max_messages = 0 then DEFAULT_MAX_QUEUE_SIZE else max_messages))

/-- Backward scan of `insert_message_by_priority` (message.c lines
437-452): starting at `tail`, step backwards over messages of strictly
lower priority, stopping at the first message of priority `≥ prio`.
Returns the final position and the number of steps taken; the fuel
argument is the loop bound `count < current_size`. -/
def prioScan (buf : List Msg) (maxSize : Nat) (prio : Nat) : Nat → Nat → Nat × Nat
  | pos, 0 => (pos, 0)
  | pos, r + 1 =>
    let idx := if pos = 0 then maxSize - 1 else pos - 1
    if (buf.getD idx default).priority ≥ prio then (pos, 0)
    else
      let rec' := prioScan buf maxSize prio idx r
      (rec'.1, rec'.2 + 1)

/-- Forward-shift loop of `insert_message_by_priority` (message.c lines
468-476): starting at `tail`, copy each element one slot forward (from
`curr-1` to `curr`) walking backwards; runs once per position between
`insert_pos` and `tail`, which is exactly the step count returned by the
backward scan. -/
def shiftUp (maxSize : Nat) (buf : List Msg) (curr : Nat) : Nat → List Msg
  | 0 => buf
  | n + 1 =>
    let prev := if curr = 0 then maxSize - 1 else curr - 1
    shiftUp maxSize (buf.set curr (buf.getD prev default)) prev n

/-- `insert_message_by_priority` (message.c lines 424-486): High and
Urgent messages are moved forward past strictly lower-priority messages;
Low and Normal messages are inserted at the tail unconditionally. -/
def insert_message_by_priority (q : MessageQueue) (m : Msg) : Int × MessageQueue :=
  if q.current_size ≥ q.max_size then (-11, q)
  else
    let scan :=
      if m.priority = MSG_PRIORITY_HIGH ∨ m.priority = MSG_PRIORITY_URGENT then
        prioScan q.messages q.max_size m.priority q.tail q.current_size
      else (q.tail, 0)
    let insert_pos := if scan.2 > 0 then scan.1 else q.tail
    let hc := if m.priority = MSG_PRIORITY_HIGH then q.high_priority_count + 1
              else q.high_priority_count
    let uc := if m.priority = MSG_PRIORITY_URGENT then q.urgent_priority_count + 1
              else q.urgent_priority_count
    let buf := if insert_pos ≠ q.tail then shiftUp q.max_size q.messages q.tail scan.2
               else q.messages
    (0, { q with messages := buf.set insert_pos m,
                 tail := (q.tail + 1) % q.max_size,
                 current_size := q.current_size + 1,
                 high_priority_count := hc,
                 urgent_priority_count := uc })

/-- `send_message` (message.c lines 233-305).  `sender` stands for
`get_current_task_id()`, `now` for `get_current_time_ms()` and `nextId`
for the fetched `next_message_id`; the updated counter is returned.  Since
`MESSAGE_FLAG_BLOCKING = 0`, `is_blocking` is always false and slot
acquisition always goes through `semaphore_trywait`. -/
def send_message (q : MessageQueue) (msg : Msg) (flags : Nat)
    (sender : Nat) (now : Nat) (nextId : Nat) : Int × MessageQueue × Nat :=
  let is_blocking := flags &&& MESSAGE_FLAG_BLOCKING ≠ 0
  let is_urgent := flags &&& MESSAGE_FLAG_URGENT ≠ 0
  let m0 : Msg := { msg with sender := sender, id := nextId, timestamp := now, flags := flags }
  let m : Msg := if m0.size > MAX_MESSAGE_SIZE then { m0 with size := MAX_MESSAGE_SIZE } else m0
  let acq :
      Option (MessageQueue) × MessageQueue :=
    if is_blocking then
      let r := qsem_timedwait q.space_available
      if r.1 ≠ 0 then (none, { q with timeouts := q.timeouts + 1 })
      else (some { q with space_available := r.2, blocked_sends := q.blocked_sends + 1 }, q)
    else
      let r := qsem_trywait q.space_available
      if r.1 ≠ 0 then (none, { q with dropped_messages := q.dropped_messages + 1 })
      else (some { q with space_available := r.2 }, q)
  match acq.1 with
  | none =>
    (if is_blocking then (-110 : Int) else (-11 : Int), acq.2, nextId + 1)
  | some q1 =>
    let ins : Int × MessageQueue :=
      if is_urgent then
        let prev_head := if q1.head > 0 then q1.head - 1 else q1.max_size - 1
        if q1.current_size < q1.max_size then
          (0, { q1 with head := prev_head,
                        messages := q1.messages.set prev_head m,
                        current_size := q1.current_size + 1,
                        urgent_priority_count := q1.urgent_priority_count + 1 })
        else (-11, q1)
      else insert_message_by_priority q1 m
    let q2 := if ins.1 = 0 then { ins.2 with messages_sent := ins.2.messages_sent + 1 }
              else ins.2
    if ins.1 = 0 then
      (0, { q2 with msg_available := (qsem_post q2.msg_available).2 }, nextId + 1)
    else
      (ins.1, { q2 with space_available := (qsem_post q2.space_available).2 }, nextId + 1)

/-- `receive_message` (message.c lines 310-364): acquire a unit of
`msg_available`, pop the message at `head`, adjust the priority counters,
release a unit of `space_available`.  With `MESSAGE_FLAG_BLOCKING = 0`
acquisition always goes through `semaphore_trywait`. -/
def receive_message (q : MessageQueue) (flags : Nat) : Int × Option Msg × MessageQueue :=
  let is_blocking := flags &&& MESSAGE_FLAG_BLOCKING ≠ 0
  let acq : Option (MessageQueue) × MessageQueue :=
    if is_blocking then
      let r := qsem_timedwait q.msg_available
      if r.1 ≠ 0 then (none, { q with timeouts := q.timeouts + 1 })
      else (some { q with msg_available := r.2, blocked_receives := q.blocked_receives + 1 }, q)
    else
      let r := qsem_trywait q.msg_available
      if r.1 ≠ 0 then (none, q)
      else (some { q with msg_available := r.2 }, q)
  match acq.1 with
  | none => (if is_blocking then (-110 : Int) else (-11 : Int), none, acq.2)
  | some q1 =>
    if q1.current_size > 0 then
      let m := q1.messages.getD q1.head default
      let uc := if m.priority = MSG_PRIORITY_URGENT then q1.urgent_priority_count - 1
                else q1.urgent_priority_count
      let hc := if m.priority ≠ MSG_PRIORITY_URGENT ∧ m.priority = MSG_PRIORITY_HIGH then
                  q1.high_priority_count - 1
                else q1.high_priority_count
      let q2 : MessageQueue :=
        { q1 with head := (q1.head + 1) % q1.max_size,
                  current_size := q1.current_size - 1,
                  urgent_priority_count := uc,
                  high_priority_count := hc,
                  messages_received := q1.messages_received + 1 }
      (0, some m, { q2 with space_available := (qsem_post q2.space_available).2 })
    else
      (-11, none, { q1 with msg_available := (qsem_post q1.msg_available).2 })

/-- Backward-shift loop of `cleanup_task_messages` (message.c lines
556-567): copy each of the `n` messages following position `pos` one slot
backwards (`messages[move_pos] = messages[next_move_pos]`). -/
def shiftDown (maxSize : Nat) (buf : List Msg) (pos : Nat) : Nat → List Msg
  | 0 => buf
  | n + 1 => shiftDown maxSize (buf.set pos (buf.getD ((pos + 1) % maxSize) default))
      ((pos + 1) % maxSize) n

/-- Intermediate state of the removal loop of `cleanup_task_messages`. -/
structure CleanupState where
  buf : List Msg
  size : Nat
  tail : Nat
  hc : Nat
  uc : Nat
  removed : Nat
deriving DecidableEq, Repr

/-- Removal loop of `cleanup_task_messages` (message.c lines 545-587).
The fuel argument is `current_size - j`, which decreases in both branches
(`j` advances past a kept message, `current_size` shrinks for a removed
one).  A removed message that is not the logically last one is shifted
over (`shiftDown` with `r` steps, where `r` is the remaining fuel after
this iteration; `j < current_size - 1` is exactly `r > 0`).  Note the
priority-counter update reads `messages[pos]` *after* the shift, as the C
code does through the stale `msg` pointer. -/
def cleanupLoop (pid : Nat) (maxSize : Nat) (buf : List Msg) (pos : Nat)
    (size : Nat) (tail : Nat) (hc : Nat) (uc : Nat) (removed : Nat) :
    Nat → CleanupState
  | 0 => { buf := buf, size := size, tail := tail, hc := hc, uc := uc, removed := removed }
  | r + 1 =>
    let m := buf.getD pos default
    let next_pos := (pos + 1) % maxSize
    if m.sender = pid ∨ m.receiver = pid then
      let buf' := if r > 0 then shiftDown maxSize buf pos r else buf
      let m2 := buf'.getD pos default
      let hc' := if m2.priority = MSG_PRIORITY_HIGH then hc - 1 else hc
      let uc' := if m2.priority ≠ MSG_PRIORITY_HIGH ∧ m2.priority = MSG_PRIORITY_URGENT then
                   uc - 1
                 else uc
      let tail' := if tail > 0 then tail - 1 else maxSize - 1
      cleanupLoop pid maxSize buf' pos (size - 1) tail' hc' uc' (removed + 1) r
    else
      cleanupLoop pid maxSize buf next_pos size tail hc uc removed r

/-- Per-queue body of `cleanup_task_messages` (message.c lines 536-605):
run the removal loop from `head`, and when anything was removed destroy
and re-initialise both semaphores to `(current_size, max_size)` and
`(max_size - current_size, max_size)`. -/
def cleanup_task_messages_queue (pid : Nat) (q : MessageQueue) : MessageQueue :=
  let s := cleanupLoop pid q.max_size q.messages q.head q.current_size q.tail
      q.high_priority_count q.urgent_priority_count 0 q.current_size
  let q1 : MessageQueue :=
    { q with messages := s.buf, current_size := s.size, tail := s.tail,
             high_priority_count := s.hc, urgent_priority_count := s.uc }
  if s.removed > 0 then
    { q1 with msg_available := qsem_init s.size q.max_size,
              space_available := qsem_init (q.max_size - s.size) q.max_size }
  else q1

/-- `cleanup_task_messages` (message.c lines 526-608): no-op for PID 0
(the C guard `pid <= 0`), otherwise every registered queue is cleaned. -/
def cleanup_task_messages (pid : Nat) (qs : List MessageQueue) : List MessageQueue :=
  if pid = 0 then qs else qs.map (cleanup_task_messages_queue pid)

/-- Logical contents of the circular buffer: `n` messages starting at
position `s`, wrapping modulo `m`. -/
def window (m : Nat) (buf : List Msg) (s : Nat) (n : Nat) : List Msg :=
  (List.range n).map (fun i => buf.getD ((s + i) % m) default)

/-- The messages currently stored in a queue, head first. -/
def queueContents (q : MessageQueue) : List Msg :=
  window q.max_size q.messages q.head q.current_size

/-- Well-formedness of a queue state: the buffer has the declared
capacity, the fill count is within it, and `head` is a valid index. -/
def QueueWF (q : MessageQueue) : Prop :=
  q.messages.length = q.max_size ∧ q.current_size ≤ q.max_size ∧ q.head < q.max_size

instance (q : MessageQueue) : Decidable (QueueWF q) := by
  unfold QueueWF; infer_instance

/-! ### Shared memory (src/kernel/memory/shared_memory.c)

Physical and virtual addresses are plain `Nat`s; the page-mapper
collaborators (`map_pages`, `unmap_pages`, `flush_tlb_range`,
`alloc_pages`) act on memory outside the segment state.  `alloc_pages`
results are supplied through an environment argument, and the number of
pages requested from `alloc_pages` is reported in the result so that
"allocates no pages" is checkable. -/

/-- One entry of the per-segment mapping table (`shm_mapping_t`). -/
structure ShmMapping where
  task_id : Nat
  virtual_addr : Nat
  size : Nat
  permissions : Nat
deriving DecidableEq, Repr, Inhabited

/-- `shared_memory_segment_t` (memory/shared_memory.c); `mapping_count` is
the length of `mappings`, and the `next` link is represented by segment
order in the registry list. -/
structure ShmSegment where
  name : String
  physical_addr : Nat
  size : Nat
  real_size : Nat
  permissions : Nat
  flags : Nat
  ref_count : Nat
  mappings : List ShmMapping
deriving DecidableEq, Repr, Inhabited

/-- Environment for `create_shared_memory`: result of `alloc_pages`
(`none` models allocation failure). -/
structure ShmEnv where
  allocResult : Option Nat
deriving DecidableEq, Repr

/-- `find_segment_by_name` (memory/shared_memory.c): first segment in the
registry list with a matching name. -/
def find_segment_by_name (reg : List ShmSegment) (name : String) : Option ShmSegment :=
  reg.find? (fun s => s.name == name)

/-- Replace the first registry entry with the given name. -/
def replaceSegment (reg : List ShmSegment) (name : String) (seg : ShmSegment) :
    List ShmSegment :=
  match reg with
  | [] => []
  | s :: rest => if s.name == name then seg :: rest else s :: replaceSegment rest name seg

/-- Result of `create_shared_memory`: handle (the segment value, `none`
for `NULL`), updated registry, updated registry count, and the number of
pages requested from `alloc_pages` during the call. -/
structure ShmCreateResult where
  handle : Option ShmSegment
  reg : List ShmSegment
  count : Nat
  pagesAllocated : Nat
deriving DecidableEq, Repr

/-- `create_shared_memory` (memory/shared_memory.c lines 399-537).
Parameter validation, registry-limit check, existing-name path (exclusive
failure, too-small failure, optional resize, permission update, refcount
increment) and the fresh-creation path, which requires `SHM_FLAG_CREATE`
and pushes the new segment at the front of the registry list. -/
def create_shared_memory (reg : List ShmSegment) (cnt : Nat) (name : String)
    (size : Nat) (permissions : Nat) (flags : Nat) (env : ShmEnv) : ShmCreateResult :=
  if name.length = 0 ∨ name.length ≥ SHM_NAME_MAX ∨ size = 0 then
    { handle := none, reg := reg, count := cnt, pagesAllocated := 0 }
  else if cnt ≥ MAX_SHARED_MEMORY_SEGMENTS then
    { handle := none, reg := reg, count := cnt, pagesAllocated := 0 }
  else
    match find_segment_by_name reg name with
    | some seg =>
      if flags &&& SHM_FLAG_EXCL ≠ 0 then
        { handle := none, reg := reg, count := cnt, pagesAllocated := 0 }
      else if seg.size < size ∧ seg.flags &&& SHM_FLAG_RESIZE = 0 then
        { handle := none, reg := reg, count := cnt, pagesAllocated := 0 }
      else
        let resized :
            Option (ShmSegment × Nat) :=
          if seg.size < size ∧ seg.flags &&& SHM_FLAG_RESIZE ≠ 0 then
            let pas := (size + PAGE_SIZE - 1) / PAGE_SIZE * PAGE_SIZE
            match env.allocResult with
            | none => none
            | some phys =>
              some ({ seg with physical_addr := phys, size := size, real_size := pas },
                    pas / PAGE_SIZE)
          else some (seg, 0)
        match resized with
        | none => { handle := none, reg := reg, count := cnt,
                    pagesAllocated := (size + PAGE_SIZE - 1) / PAGE_SIZE }
        | some sp =>
          let seg1 := sp.1
          let seg2 := if permissions ≠ 0 then { seg1 with permissions := permissions }
                      else seg1
          let seg3 := { seg2 with ref_count := seg2.ref_count + 1 }
          { handle := some seg3, reg := replaceSegment reg name seg3, count := cnt,
            pagesAllocated := sp.2 }
    | none =>
      if flags &&& SHM_FLAG_CREATE = 0 then
        { handle := none, reg := reg, count := cnt, pagesAllocated := 0 }
      else
        let pas := (size + PAGE_SIZE - 1) / PAGE_SIZE * PAGE_SIZE
        match env.allocResult with
        | none => { handle := none, reg := reg, count := cnt,
                    pagesAllocated := pas / PAGE_SIZE }
        | some phys =>
          let seg : ShmSegment :=
            { name := name.take (SHM_NAME_MAX - 1), physical_addr := phys, size := size,
              real_size := pas, permissions := permissions, flags := flags,
              ref_count := 1, mappings := [] }
          { handle := some seg, reg := seg :: reg, count := cnt + 1,
            pagesAllocated := pas / PAGE_SIZE }

/-- Environment for `map_shared_memory`: whether the current task has a
page directory, and the result code of the `map_pages` collaborator. -/
structure MapEnv where
  pageDirOk : Bool
  mapPagesResult : Int
deriving DecidableEq, Repr

/-- `map_shared_memory` (memory/shared_memory.c lines 623-714).  An
existing mapping for the caller returns its address unchanged; otherwise a
virtual address is carved from `next_shm_addr` (which advances *before*
the permission check and is not rolled back on failure), the effective
permissions are `permissions & segment->permissions`, and on success the
mapping is appended.  The segment's `ref_count` is **not** touched on this
path.  Returns (virtual address or `none`, segment, new `next_shm_addr`). -/
def map_shared_memory (seg : ShmSegment) (permissions : Nat) (current_task_id : Nat)
    (next_shm_addr : Nat) (env : MapEnv) : Option Nat × ShmSegment × Nat :=
  match seg.mappings.find? (fun mp => mp.task_id == current_task_id) with
  | some mp => (some mp.virtual_addr, seg, next_shm_addr)
  | none =>
    if !env.pageDirOk then (none, seg, next_shm_addr)
    else
      let virtual_addr := next_shm_addr
      let next' := next_shm_addr + seg.real_size
      let effective_permissions := permissions &&& seg.permissions
      if effective_permissions = 0 then (none, seg, next')
      else if env.mapPagesResult ≠ 0 then (none, seg, next')
      else if seg.mappings.length ≥ MAX_SHM_MAPPINGS then (none, seg, next')
      else
        (some virtual_addr,
         { seg with mappings := seg.mappings ++
             [{ task_id := current_task_id, virtual_addr := virtual_addr,
                size := seg.size, permissions := effective_permissions }] },
         next')

/-- Per-segment body of `cleanup_task_shared_memory` (memory/
shared_memory.c lines 223-260): every mapping of the exiting task is
unmapped and removed, and `ref_count` is decremented once per removed
mapping.  The in-place `memmove` compaction with the `i--` index fix-up
removes exactly the matching entries, preserving the order of the rest. -/
def cleanup_task_shared_memory_seg (task_id : Nat) (seg : ShmSegment) : ShmSegment :=
  let rec go : List ShmMapping → Nat → List ShmMapping × Nat
    | [], rc => ([], rc)
    | mp :: rest, rc =>
      if mp.task_id = task_id then go rest (rc - 1)
      else
        let r := go rest rc
        (mp :: r.1, r.2)
  let r := go seg.mappings seg.ref_count
  { seg with mappings := r.1, ref_count := r.2 }

/-- The refcount invariant claimed by the specification for a segment:
`ref_count` equals the creator's holds plus the number of mappings. -/
def shmRefInvariant (creatorHolds : Nat) (seg : ShmSegment) : Prop :=
  seg.ref_count = creatorHolds + seg.mappings.length

instance (n : Nat) (seg : ShmSegment) : Decidable (shmRefInvariant n seg) := by
  unfold shmRefInvariant; infer_instance

/-! ### Specification-side helpers -/

/-- The messages that survive `cleanup_task_messages pid`: those neither
sent by nor addressed to the exiting task. -/
def keepMsg (pid : Nat) (m : Msg) : Bool :=
  !(m.sender == pid || m.receiver == pid)

/-- The PIDs a wake of `n` waiters is supposed to unblock out of a waiter
list `l`: all of them for `n = 0`, otherwise the first `n`. -/
def wokenOf (n : Nat) (l : List Nat) : List Nat :=
  if n = 0 then l else l.take n

/-- Enqueue a list of PIDs, in order, on an ipc.c wait queue. -/
def enqueuePids (q : WaitQueue) (ps : List Nat) : WaitQueue :=
  ps.foldl (fun acc p => add_waiter acc p 0 0) q

/-- Enqueue a list of PIDs, in order, on an event. -/
def enqueueEventPids (e : Event) (ps : List Nat) : Event :=
  ps.foldl (fun acc p => add_event_waiter acc p 0 0) e

/-- Enqueue a list of PIDs, in order, on an event set. -/
def enqueueEventSetPids (es : EventSet) (ps : List Nat) : EventSet :=
  ps.foldl (fun acc p => add_event_set_waiter acc p 0 0) es

/-! ### Concrete fixtures used by the counterexample and witness theorems -/

/-- A low-priority message as built by the repository's own priority test. -/
def lowMsg : Msg :=
  { priority := MSG_PRIORITY_LOW, receiver := 200, size := 5, payload := 1 }

/-- A normal-priority message. -/
def normalMsg : Msg :=
  { priority := MSG_PRIORITY_NORMAL, receiver := 200, size := 5, payload := 2 }

/-- Queue state after sending `lowMsg` into a fresh queue of capacity 10. -/
def qC1a : MessageQueue := (send_message (freshQueue 10) lowMsg 0 100 0 1).2.1

/-- Queue state after additionally sending `normalMsg`. -/
def qC1b : MessageQueue := (send_message qC1a normalMsg 0 101 1 2).2.1

/-- A mutex owned by task 1 on which task 2 is blocked. -/
def mutexC3 : Mutex :=
  { mtype := IPC_TYPE_MUTEX, name := "m3", ref_count := 1, owner := 1, lock_count := 1,
    wait_queue := { name := "m3", flags := WAIT_QUEUE_MUTEX,
                    waiters := [{ pid := 2, wait_start_time := 0, timeout := 0 }] } }

/-- A fresh auto-reset event. -/
def eventC4 : Event := create_event ("ev4")

/-- The event after task 7 has entered `event_wait` and blocked. -/
def eventC4blocked : Event := add_event_waiter eventC4 7 0 0

/-- A message sent by task `snd` to task 200, as in the repository's
`test_task_cleanup`. -/
def mkC6Msg (snd : Nat) : Msg :=
  { priority := MSG_PRIORITY_NORMAL, sender := snd, receiver := 200, size := 4 }

/-- A capacity-10 queue holding five messages with senders 100..104, the
seed state of the repository's `test_task_cleanup`. -/
def qC6 : MessageQueue :=
  { max_size := 10, current_size := 5, head := 0, tail := 5,
    high_priority_count := 0, urgent_priority_count := 0,
    messages := [mkC6Msg 100, mkC6Msg 101, mkC6Msg 102, mkC6Msg 103, mkC6Msg 104]
      ++ List.replicate 5 default,
    msg_available := qsem_init 5 10, space_available := qsem_init 5 10,
    messages_sent := 5, messages_received := 0, blocked_sends := 0,
    blocked_receives := 0, dropped_messages := 0, timeouts := 0 }

/-- An event on which tasks 1 and then 2 enqueued (in that order). -/
def eventC7 : Event := add_event_waiter (add_event_waiter (create_event ("e7")) 1 0 0) 2 0 0

/-- A mutex owned by task 4 on which task 5 is blocked. -/
def mutexC8 : Mutex :=
  { mtype := IPC_TYPE_MUTEX, name := "m8", ref_count := 1, owner := 4, lock_count := 1,
    wait_queue := { name := "m8", flags := WAIT_QUEUE_MUTEX,
                    waiters := [{ pid := 5, wait_start_time := 0, timeout := 0 }] } }

/-- A semaphore created with a small initial value, used as a witness. -/
def semWit : Semaphore := create_semaphore ("sw") 5

/-- An event pool holding one valid event (index 0). -/
def poolC9 : List Event := [create_event ("e9")]

/-- An event set that already contains event 0. -/
def esWithZero : EventSet :=
  { estype := IPC_TYPE_EVENT_SET, name := "s9", ref_count := 1, events := [0], waiters := [] }

/-- An event set with no members. -/
def esNoMembers : EventSet := create_event_set ("s9b")

/-- A one-page shared segment just created (refcount 1, no mappings). -/
def segC2fix : ShmSegment :=
  { name := "seg2"
    physical_addr := 4096
    size := 100
    real_size := 4096
    permissions := 3
    flags := 1
    ref_count := 1
    mappings := [] }

/-- Map environment in which the collaborators succeed. -/
def envMapOk : MapEnv := { pageDirOk := true, mapPagesResult := 0 }

/-- The segment after task 5 mapped it read-write. -/
def segC2mapped : ShmSegment :=
  (map_shared_memory segC2fix 3 5 139637976727552 envMapOk).2.1

/-- Allocation environment for the shared-memory creation witness. -/
def envShmFresh : ShmEnv := { allocResult := some 8192 }

/-! ## Theorems -/

/-- C1: evaluation of the code at the failing input.  After sending a Low
message and then a Normal message (both without the Urgent flag) into a
fresh capacity-10 queue, the queue holds them in order Low, Normal —
`insert_message_by_priority` repositions only High and Urgent messages —
so `receive_message` returns the Low message even though a Normal message
of strictly higher priority is queued.  This also contradicts the
repository's own `test_message_priority`, which expects the Normal message
before the Low one. -/
theorem C1_receive_returns_low_before_normal :
    (send_message (freshQueue 10) lowMsg 0 100 0 1).1 = 0 ∧
    (send_message qC1a normalMsg 0 101 1 2).1 = 0 ∧
    (queueContents qC1b).map Msg.priority = [MSG_PRIORITY_LOW, MSG_PRIORITY_NORMAL] ∧
    (receive_message qC1b 0).1 = 0 ∧
    ((receive_message qC1b 0).2.1.map Msg.priority) = some MSG_PRIORITY_LOW ∧
    MSG_PRIORITY_LOW < MSG_PRIORITY_NORMAL := by
  decide

/-- C2: evaluation of the code at the failing input.  A freshly created
segment satisfies the refcount invariant (`ref_count = 1` creator hold +
0 mappings); after `map_shared_memory` records a mapping for task 5 the
invariant is broken, because the mapping path never increments
`ref_count`; `cleanup_task_shared_memory` nevertheless decrements it once
per removed mapping, driving it to 0 while the creator still holds the
segment. -/
theorem C2_map_shared_memory_skips_refcount :
    shmRefInvariant 1 segC2fix ∧
    (map_shared_memory segC2fix 3 5 139637976727552 envMapOk).1 = some 139637976727552 ∧
    segC2mapped.mappings.length = 1 ∧
    segC2mapped.ref_count = segC2fix.ref_count ∧
    ¬ shmRefInvariant 1 segC2mapped ∧
    (cleanup_task_shared_memory_seg 5 segC2mapped).ref_count = 0 ∧
    (cleanup_task_shared_memory_seg 5 segC2mapped).mappings = [] := by
  decide

/-- C3: evaluation of the code at the failing input.  Task 1 owns
`mutexC3` and task 2 waits on it.  `mutex_unlock` by task 1 wakes task 2
but sets `owner` to 0 first, so in the state between the unlock and
task 2's resumption a `mutex_trylock` by task 3 returns 0 (success) and
takes ownership — the mutex is observable as unlocked during the
transfer, contrary to the claimed direct hand-off. -/
theorem C3_trylock_succeeds_during_transfer :
    (mutex_unlock mutexC3 1).1 = 0 ∧
    (mutex_unlock mutexC3 1).2.2 = [2] ∧
    (mutex_unlock mutexC3 1).2.1.owner = 0 ∧
    (mutex_trylock (mutex_unlock mutexC3 1).2.1 3).1 = 0 ∧
    (mutex_trylock (mutex_unlock mutexC3 1).2.1 3).2.owner = 3 := by
  decide

/-- C4: evaluation of the code at the failing input.  With auto-reset
event `eventC4` and exactly one blocked waiter (task 7), `event_signal`
does wake task 7 and leaves the event non-signaled — but precisely
because the signal path cleared `signaled` when it woke a waiter, the
woken task's resume path of `event_timedwait` finds the event
non-signaled and returns `-1` (timeout) instead of success.  A second
wait (task 8) blocks, as the claim states. -/
theorem C4_woken_waiter_reports_timeout :
    event_timedwait eventC4 7 0 0 = .blocked eventC4blocked ∧
    (event_signal eventC4blocked).1 = 0 ∧
    (event_signal eventC4blocked).2.2 = [7] ∧
    (event_signal eventC4blocked).2.1.state = EVENT_STATE_NONSIGNALED ∧
    (event_timedwait_resume (event_signal eventC4blocked).2.1 7).1 = -1 ∧
    event_timedwait (event_signal eventC4blocked).2.1 8 100 1 =
      .blocked (add_event_waiter (event_signal eventC4blocked).2.1 8 1
        (eventTimeoutTicks 100)) := by
  decide

/-- C5 counterexample: `create_semaphore` stores the `uint32_t` initial
value 2^31 into the `int32_t` `value` field, producing `-2^31`, so the
invariant `0 ≤ value` fails immediately after creation for this
`initial_value`. -/
theorem C5_counterexample_create_overflow :
    ¬ SemInv (create_semaphore ("sc") 2147483648) ∧
    (create_semaphore ("sc") 2147483648).value = -2147483648 := by
  decide

/-- C7 counterexample: tasks 1 and then 2 enqueue on an event, and waking
all waiters issues `unblock_task` in the order [2, 1] — the reverse of
the enqueue order, because `add_event_waiter` pushes at the list head. -/
theorem C7_counterexample_event_wake_is_lifo :
    (wake_event_waiters eventC7 0).1 = [2, 1] ∧
    (wake_event_waiters eventC7 0).1 ≠ [1, 2] := by
  decide

/-- C8 counterexample: `destroy_mutex` on a mutex that is owned (by task
4) and has a waiter (task 5) does not leave the mutex unchanged and does
not report Busy: it wakes the waiter and zeroes the whole structure. -/
theorem C8_counterexample_destroy_owned_mutex :
    mutexC8.owner ≠ 0 ∧
    mutexC8.wait_queue.waiters ≠ [] ∧
    (destroy_mutex mutexC8).1 ≠ mutexC8 ∧
    (destroy_mutex mutexC8).1.mtype = 0 ∧
    (destroy_mutex mutexC8).2 = [5] := by
  decide

/-! ### Helper lemmas about the wake loop -/

/-- Helper: the wake loop unblocks the waiters in list order — all of
them for `count = 0`, otherwise the first `count - woken`. -/
theorem wakeLoop_pids (count : Nat) (l : List Waiter) : ∀ (woken : Nat),
    (wakeLoop count woken l).1 =
      if count = 0 then l.map Waiter.pid else (l.map Waiter.pid).take (count - woken) := by
  induction l with
  | nil => intro woken; simp [wakeLoop]
  | cons w rest ih =>
    intro woken
    by_cases h0 : count = 0
    · rw [wakeLoop, if_pos (Or.inl h0), if_pos h0]
      simp only [List.map_cons, List.cons.injEq, true_and]
      rw [ih (woken + 1), if_pos h0]
    · by_cases hw : woken < count
      · rw [wakeLoop, if_pos (Or.inr hw), if_neg h0]
        obtain ⟨k, hk⟩ : ∃ k, count - woken = k + 1 := ⟨count - woken - 1, by omega⟩
        rw [hk]
        simp only [List.map_cons, List.take_succ_cons, List.cons.injEq, true_and]
        rw [ih (woken + 1), if_neg h0]
        congr 1
        omega
      · rw [wakeLoop, if_neg (by push_neg; exact ⟨h0, by omega⟩), if_neg h0]
        have : count - woken = 0 := by omega
        rw [this]
        simp

/-- Helper: `wake_waiters` reports exactly the first waiters, in queue
order. -/
theorem wake_waiters_pids (q : WaitQueue) (n : Nat) :
    (wake_waiters q n).1 = wokenOf n (q.waiters.map Waiter.pid) := by
  unfold wake_waiters wokenOf
  rw [wakeLoop_pids]
  simp

/-- Helper: `wake_event_waiters` reports exactly the first waiters of the
event's list, in list order. -/
theorem wake_event_waiters_pids (e : Event) (n : Nat) :
    (wake_event_waiters e n).1 = wokenOf n (e.waiters.map Waiter.pid) := by
  unfold wake_event_waiters wokenOf
  rw [wakeLoop_pids]
  simp

/-- Helper: `wake_event_set_waiters` reports exactly the first waiters of
the set's list, in list order. -/
theorem wake_event_set_waiters_pids (es : EventSet) (n : Nat) :
    (wake_event_set_waiters es n).1 = wokenOf n (es.waiters.map Waiter.pid) := by
  unfold wake_event_set_waiters wokenOf
  rw [wakeLoop_pids]
  simp

/-- Helper: enqueuing on an ipc.c wait queue appends at the tail. -/
theorem enqueuePids_waiters : ∀ (ps : List Nat) (q : WaitQueue),
    (enqueuePids q ps).waiters =
      q.waiters ++ ps.map (fun p => { pid := p, wait_start_time := 0, timeout := 0 })
  | [], q => by simp [enqueuePids]
  | p :: rest, q => by
    show (enqueuePids (add_waiter q p 0 0) rest).waiters = _
    rw [enqueuePids_waiters rest]
    simp [add_waiter]

/-- Helper: enqueuing on an event pushes at the head, so the list is the
reverse of the enqueue order. -/
theorem enqueueEventPids_waiters : ∀ (ps : List Nat) (e : Event),
    (enqueueEventPids e ps).waiters =
      (ps.map (fun p => { pid := p, wait_start_time := 0, timeout := 0 })).reverse ++ e.waiters
  | [], e => by simp [enqueueEventPids]
  | p :: rest, e => by
    show (enqueueEventPids (add_event_waiter e p 0 0) rest).waiters = _
    rw [enqueueEventPids_waiters rest]
    simp [add_event_waiter]

/-- Helper: enqueuing on an event set pushes at the head, like events. -/
theorem enqueueEventSetPids_waiters : ∀ (ps : List Nat) (es : EventSet),
    (enqueueEventSetPids es ps).waiters =
      (ps.map (fun p => { pid := p, wait_start_time := 0, timeout := 0 })).reverse ++ es.waiters
  | [], es => by simp [enqueueEventSetPids]
  | p :: rest, es => by
    show (enqueueEventSetPids (add_event_set_waiter es p 0 0) rest).waiters = _
    rw [enqueueEventSetPids_waiters rest]
    simp [add_event_set_waiter]

/-- Helper: projecting the PID back out of the constructed waiters. -/
theorem map_pid_mk (ps : List Nat) :
    (ps.map (fun p => ({ pid := p, wait_start_time := 0, timeout := 0 } : Waiter))).map
      Waiter.pid = ps := by
  induction ps with
  | nil => rfl
  | cons p rest ih => simp [ih]

/-- C7 (amended): for waiters enqueued in order `ps` on an initially
empty queue, waking `n` of them (`n = 0` wakes all) issues `unblock_task`
in enqueue order (FIFO) for the ipc.c wait queues used by mutexes and
semaphores — but in reverse enqueue order (LIFO) for events and event
sets, whose `add_event_waiter` / `add_event_set_waiter` push new waiters
at the head of the list. -/
theorem C7_wake_order (name : String) (ps : List Nat) (n : Nat) :
    (wake_waiters (enqueuePids (init_wait_queue name WAIT_QUEUE_MUTEX) ps) n).1 =
      wokenOf n ps ∧
    (wake_waiters (enqueuePids (init_wait_queue name WAIT_QUEUE_SEMAPHORE) ps) n).1 =
      wokenOf n ps ∧
    (wake_event_waiters (enqueueEventPids (create_event name) ps) n).1 =
      wokenOf n ps.reverse ∧
    (wake_event_set_waiters (enqueueEventSetPids (create_event_set name) ps) n).1 =
      wokenOf n ps.reverse := by
  refine ⟨?_, ?_, ?_, ?_⟩
  · rw [wake_waiters_pids, enqueuePids_waiters]
    simp only [init_wait_queue, List.nil_append]
    rw [map_pid_mk]
  · rw [wake_waiters_pids, enqueuePids_waiters]
    simp only [init_wait_queue, List.nil_append]
    rw [map_pid_mk]
  · rw [wake_event_waiters_pids, enqueueEventPids_waiters]
    simp only [create_event, List.append_nil]
    rw [List.map_reverse, map_pid_mk]
  · rw [wake_event_set_waiters_pids, enqueueEventSetPids_waiters]
    simp only [create_event_set, List.append_nil]
    rw [List.map_reverse, map_pid_mk]

/-- C8 (amended): on any valid mutex, `destroy_mutex` unconditionally
destroys: it wakes every waiter, in queue order, and zeroes the whole
structure; it never reports Busy and never leaves the mutex unchanged,
whatever the owner and wait queue are. -/
theorem C8_destroy_mutex_unconditional (m : Mutex) (h : m.mtype = IPC_TYPE_MUTEX) :
    destroy_mutex m = (clearedMutex, m.wait_queue.waiters.map Waiter.pid) := by
  unfold destroy_mutex
  rw [if_neg (by simp [h])]
  show (clearedMutex, (wake_waiters m.wait_queue 0).1) = _
  rw [wake_waiters_pids]
  simp [wokenOf]

/-- C8 witness: the amended statement evaluated on `mutexC8`. -/
theorem C8_destroy_mutex_unconditional_witness :
    mutexC8.mtype = IPC_TYPE_MUTEX ∧ destroy_mutex mutexC8 = (clearedMutex, [5]) :=
  ⟨by decide, by rw [C8_destroy_mutex_unconditional mutexC8 (by decide)]; decide⟩

/-- C5 (amended): the semaphore invariant `0 ≤ value ≤ max_value`, with a
non-empty wait queue forcing `value = 0`, holds after `create_semaphore`
for every `initial_value < 2^31` (the values the `int32_t` store keeps
non-negative) and is preserved by `semaphore_wait`, `semaphore_trywait`
and `semaphore_post`. -/
theorem C5_semaphore_invariant :
    (∀ (name : String) (init : Nat), init < 2147483648 →
        SemInv (create_semaphore name init)) ∧
    (∀ (s : Semaphore) (pid now : Nat), SemInv s → SemInv (semaphore_wait s pid now).2) ∧
    (∀ s : Semaphore, SemInv s → SemInv (semaphore_trywait s).2) ∧
    (∀ s : Semaphore, SemInv s → SemInv (semaphore_post s).2.1) := by
  refine ⟨?_, ?_, ?_, ?_⟩
  · intro name init h
    have h2 : init % 4294967296 = init := Nat.mod_eq_of_lt (by omega)
    unfold SemInv create_semaphore toInt32 init_wait_queue
    simp only [h2, if_pos h]
    refine ⟨by positivity, by exact_mod_cast (by omega : init ≤ 2147483647), by simp⟩
  · intro s pid now hs
    obtain ⟨h0, h1, h2⟩ := hs
    unfold SemInv semaphore_wait
    split_ifs with ht hv
    · exact ⟨h0, h1, h2⟩
    · dsimp only
      refine ⟨by omega, by omega, ?_⟩
      intro hw
      have := h2 hw
      omega
    · dsimp only [add_waiter]
      refine ⟨h0, h1, ?_⟩
      intro _
      omega
  · intro s hs
    obtain ⟨h0, h1, h2⟩ := hs
    unfold SemInv semaphore_trywait
    split_ifs with ht hv
    · exact ⟨h0, h1, h2⟩
    · dsimp only
      refine ⟨by omega, by omega, ?_⟩
      intro hw
      have := h2 hw
      omega
    · exact ⟨h0, h1, h2⟩
  · intro s hs
    obtain ⟨h0, h1, h2⟩ := hs
    unfold SemInv semaphore_post
    split_ifs with ht hmax hwait
    · exact ⟨h0, h1, h2⟩
    · exact ⟨h0, h1, h2⟩
    · dsimp only
      refine ⟨h0, h1, ?_⟩
      intro _
      exact h2 (List.length_pos.mp hwait)
    · dsimp only
      refine ⟨by omega, by omega, ?_⟩
      intro hw
      have hwe : s.wait_queue.waiters = [] := List.length_eq_zero.mp (by omega)
      exact absurd hwe hw

/-- C5 witness: the amended statement applied at `initial_value = 5` and
at the resulting semaphore. -/
theorem C5_semaphore_invariant_witness :
    SemInv (create_semaphore ("sw") 5) ∧
    SemInv (semaphore_wait semWit 3 0).2 ∧
    SemInv (semaphore_trywait semWit).2 ∧
    SemInv (semaphore_post semWit).2.1 :=
  ⟨C5_semaphore_invariant.1 ("sw") 5 (by decide),
   C5_semaphore_invariant.2.1 semWit 3 0 (by decide),
   C5_semaphore_invariant.2.2.1 semWit (by decide),
   C5_semaphore_invariant.2.2.2 semWit (by decide)⟩

/-- Helper: setting an index below the length and reading it back gives
the new value. -/
theorem getD_set_self {α : Type} (l : List α) (i : Nat) (a d : α) (h : i < l.length) :
    (l.set i a).getD i d = a := by
  simp [List.getD_eq_getElem?_getD, List.getElem?_set_self, h]

/-- Helper: setting one index leaves reads at other indices unchanged. -/
theorem getD_set_ne {α : Type} (l : List α) (i j : Nat) (a d : α) (h : i ≠ j) :
    (l.set i a).getD j d = l.getD j d := by
  simp [List.getD_eq_getElem?_getD, List.getElem?_set_ne h]

/-- C9: `event_set_add` is idempotent.  Adding an event that is already a
member returns 0 and changes neither the set nor the event pool (so both
the member count and the event's reference count are untouched); adding a
fresh event to a non-full set returns 0, appends the member, and
increments exactly that event's reference count. -/
theorem C9_event_set_add_idempotent (pool : List Event) (es : EventSet) (ev : Nat)
    (hset : es.estype = IPC_TYPE_EVENT_SET)
    (hev : (pool.getD ev default).etype = IPC_TYPE_EVENT) :
    (ev ∈ es.events → event_set_add pool es ev = (0, es, pool)) ∧
    (ev ∉ es.events → es.events.length < MAX_EVENTS_PER_SET →
      (event_set_add pool es ev).1 = 0 ∧
      (event_set_add pool es ev).2.1.events = es.events ++ [ev] ∧
      (event_set_add pool es ev).2.2.length = pool.length ∧
      ((event_set_add pool es ev).2.2.getD ev default).ref_count =
        (pool.getD ev default).ref_count + 1) := by
  have hvalid :
      ¬(es.estype ≠ IPC_TYPE_EVENT_SET ∨ (pool.getD ev default).etype ≠ IPC_TYPE_EVENT) := by
    push_neg
    exact ⟨hset, hev⟩
  constructor
  · intro hmem
    unfold event_set_add
    rw [if_neg hvalid, if_pos hmem]
  · intro hmem hlen
    have hlt : ev < pool.length := by
      by_contra hge
      have hd : pool.getD ev default = default := List.getD_eq_default _ _ (by omega)
      rw [hd] at hev
      simp [IPC_TYPE_EVENT] at hev
    unfold event_set_add
    rw [if_neg hvalid, if_neg hmem, if_neg (by omega)]
    refine ⟨rfl, rfl, by simp, ?_⟩
    rw [getD_set_self _ _ _ _ hlt]

/-- C9 witness: both branches of the idempotence statement evaluated on a
one-event pool. -/
theorem C9_event_set_add_idempotent_witness :
    event_set_add poolC9 esWithZero 0 = (0, esWithZero, poolC9) ∧
    (event_set_add poolC9 esNoMembers 0).1 = 0 ∧
    (event_set_add poolC9 esNoMembers 0).2.1.events = [0] ∧
    ((event_set_add poolC9 esNoMembers 0).2.2.getD 0 default).ref_count =
      (poolC9.getD 0 default).ref_count + 1 :=
  ⟨(C9_event_set_add_idempotent poolC9 esWithZero 0 (by decide) (by decide)).1 (by decide),
   ((C9_event_set_add_idempotent poolC9 esNoMembers 0 (by decide) (by decide)).2
      (by decide) (by decide)).1,
   ((C9_event_set_add_idempotent poolC9 esNoMembers 0 (by decide) (by decide)).2
      (by decide) (by decide)).2.1,
   ((C9_event_set_add_idempotent poolC9 esNoMembers 0 (by decide) (by decide)).2
      (by decide) (by decide)).2.2.2⟩

/-- C10: when no segment with the given name exists and `SHM_FLAG_CREATE`
(bit 0) is clear, `create_shared_memory` returns `NULL`, requests no
pages from `alloc_pages`, and leaves the registry and its count
unchanged. -/
theorem C10_create_requires_create_flag (reg : List ShmSegment) (cnt : Nat) (name : String)
    (size permissions flags : Nat) (env : ShmEnv)
    (hname : find_segment_by_name reg name = none)
    (hflag : flags &&& SHM_FLAG_CREATE = 0) :
    create_shared_memory reg cnt name size permissions flags env =
      { handle := none, reg := reg, count := cnt, pagesAllocated := 0 } := by
  unfold create_shared_memory
  rw [hname]
  dsimp only
  rw [if_pos hflag]
  split_ifs <;> rfl

/-- C10 witness: the statement evaluated on an empty registry. -/
theorem C10_create_requires_create_flag_witness :
    find_segment_by_name [] ("sx") = none ∧
    create_shared_memory [] 0 ("sx") 4096 3 0 envShmFresh =
      { handle := none, reg := [], count := 0, pagesAllocated := 0 } :=
  ⟨by decide,
   C10_create_requires_create_flag [] 0 ("sx") 4096 3 0 envShmFresh (by decide) (by decide)⟩

/-! ### Helper lemmas about the circular buffer (for C6) -/

/-- Helper: a left addend cancels under a common modulus when both
remainders are already reduced. -/
theorem mod_add_cancel (m h a b : Nat) (ha : a < m) (hb : b < m)
    (hab : (h + a) % m = (h + b) % m) : a = b := by
  have h1 : a % m = b % m := Nat.ModEq.add_left_cancel' h hab
  rwa [Nat.mod_eq_of_lt ha, Nat.mod_eq_of_lt hb] at h1

/-- Helper: the window of width 0 is empty. -/
theorem window_zero (m : Nat) (buf : List Msg) (s : Nat) : window m buf s 0 = [] := by
  simp [window]

/-- Helper: windows only depend on the start position modulo the size. -/
theorem window_congr (m : Nat) (buf : List Msg) (s t n : Nat) (h : s % m = t % m) :
    window m buf s n = window m buf t n := by
  unfold window
  apply List.map_congr_left
  intro i _
  have : (s + i) % m = (t + i) % m := by
    calc (s + i) % m = (s % m + i) % m := (Nat.mod_add_mod s m i).symm
      _ = (t % m + i) % m := by rw [h]
      _ = (t + i) % m := Nat.mod_add_mod t m i
  rw [this]

/-- Helper: peeling the first element off a window. -/
theorem window_succ (m : Nat) (buf : List Msg) (s n : Nat) :
    window m buf s (n + 1) = buf.getD (s % m) default :: window m buf (s + 1) n := by
  unfold window
  rw [List.range_succ_eq_map]
  simp only [List.map_cons, List.map_map, Nat.add_zero]
  congr 1
  apply List.map_congr_left
  intro i _
  simp only [Function.comp_apply]
  have : s + (i + 1) = s + 1 + i := by omega
  rw [Nat.succ_eq_add_one, this]

/-- Helper: peeling the last element off a window. -/
theorem window_succ_right (m : Nat) (buf : List Msg) (s n : Nat) :
    window m buf s (n + 1) = window m buf s n ++ [buf.getD ((s + n) % m) default] := by
  unfold window
  rw [List.range_succ]
  simp

/-- Helper: the backward shift does not change the buffer length. -/
theorem shiftDown_length (m : Nat) : ∀ (r : Nat) (buf : List Msg) (pos : Nat),
    (shiftDown m buf pos r).length = buf.length
  | 0, buf, pos => rfl
  | r + 1, buf, pos => by
    show (shiftDown m (buf.set pos (buf.getD ((pos + 1) % m) default)) ((pos + 1) % m) r).length
      = _
    rw [shiftDown_length m r]
    simp

/-- Helper, the heart of the C6 proof: after `r` backward-shift steps at
`pos`, slot `pos + k` holds the old value of slot `pos + k + 1` when
`k < r`, and its old value otherwise (indices mod `m`).  The sequential
copies never overwrite a slot that a later step still reads because
`r < m`. -/
theorem shiftDown_getD (m : Nat) : ∀ (r : Nat) (buf : List Msg) (pos k : Nat),
    buf.length = m → pos < m → r < m → k < m →
    (shiftDown m buf pos r).getD ((pos + k) % m) default =
      if k < r then buf.getD ((pos + k + 1) % m) default
      else buf.getD ((pos + k) % m) default
  | 0, buf, pos, k, _, _, _, _ => by
    rw [if_neg (by omega)]
    rfl
  | r + 1, buf, pos, k, hlen, hpos, hr, hk => by
    have hm : 0 < m := by omega
    have hpos1 : (pos + 1) % m < m := Nat.mod_lt _ hm
    have hlen1 : (buf.set pos (buf.getD ((pos + 1) % m) default)).length = m := by
      simp [hlen]
    show (shiftDown m (buf.set pos (buf.getD ((pos + 1) % m) default)) ((pos + 1) % m) r).getD
        ((pos + k) % m) default = _
    rcases Nat.eq_zero_or_pos k with hk0 | hkpos
    · subst hk0
      have hidx : ((pos + 1) % m + (m - 1)) % m = (pos + 0) % m := by
        rw [Nat.mod_add_mod]
        have h1 : pos + 1 + (m - 1) = pos + m := by omega
        have h2 : pos + 0 = pos := by omega
        rw [h1, h2, Nat.add_mod_right]
      have hrec := shiftDown_getD m r (buf.set pos (buf.getD ((pos + 1) % m) default))
        ((pos + 1) % m) (m - 1) hlen1 hpos1 (by omega) (by omega)
      rw [hidx, if_neg (by omega)] at hrec
      rw [hrec, if_pos (by omega)]
      have h3 : (pos + 0) % m = pos := by
        rw [Nat.add_zero, Nat.mod_eq_of_lt hpos]
      rw [h3, getD_set_self buf pos _ _ (by omega)]
    · obtain ⟨k', rfl⟩ : ∃ k', k = k' + 1 := ⟨k - 1, by omega⟩
      have hidx : ((pos + 1) % m + k') % m = (pos + (k' + 1)) % m := by
        rw [Nat.mod_add_mod]
        congr 1
        omega
      have hrec := shiftDown_getD m r (buf.set pos (buf.getD ((pos + 1) % m) default))
        ((pos + 1) % m) k' hlen1 hpos1 (by omega) (by omega)
      rw [hidx] at hrec
      rw [hrec]
      by_cases hlt : k' < r
      · rw [if_pos hlt, if_pos (by omega)]
        have hne : pos ≠ ((pos + 1) % m + k' + 1) % m := by
          intro heq
          have h1 : ((pos + 1) % m + k' + 1) % m = (pos + (k' + 2)) % m := by
            rw [Nat.add_assoc, Nat.mod_add_mod]
            congr 1
            omega
          rw [h1] at heq
          have h2 : (pos + 0) % m = (pos + (k' + 2)) % m := by
            rw [Nat.add_zero, Nat.mod_eq_of_lt hpos]
            exact heq
          have := mod_add_cancel m pos 0 (k' + 2) (by omega) (by omega) h2
          omega
        rw [getD_set_ne buf pos _ _ _ hne]
        congr 1
        rw [Nat.add_assoc, Nat.mod_add_mod]
        congr 1
        omega
      · rw [if_neg hlt, if_neg (by omega)]
        have hne : pos ≠ (pos + (k' + 1)) % m := by
          intro heq
          have h2 : (pos + 0) % m = (pos + (k' + 1)) % m := by
            rw [Nat.add_zero, Nat.mod_eq_of_lt hpos]
            exact heq
          have := mod_add_cancel m pos 0 (k' + 1) (by omega) (by omega) h2
          omega
        rw [getD_set_ne buf pos _ _ _ hne]

/-- Helper: the shifted region of the buffer reads as the old buffer one
slot further on. -/
theorem shiftDown_window_in (mx : Nat) (buf : List Msg) (pos r : Nat)
    (hlen : buf.length = mx) (hpos : pos < mx) (hr : r < mx) :
    window mx (shiftDown mx buf pos r) pos r = window mx buf (pos + 1) r := by
  unfold window
  apply List.map_congr_left
  intro k hk
  have hk' : k < r := List.mem_range.mp hk
  rw [shiftDown_getD mx r buf pos k hlen hpos hr (by omega), if_pos hk']
  congr 2
  omega

/-- Helper: the shift touches none of the `j` slots before its start
position, as long as everything fits in the buffer. -/
theorem shiftDown_window_out (mx : Nat) (buf : List Msg) (head j r : Nat)
    (hlen : buf.length = mx) (hh : head < mx) (hjr : j + r + 1 ≤ mx) :
    window mx (shiftDown mx buf ((head + j) % mx) r) head j = window mx buf head j := by
  unfold window
  apply List.map_congr_left
  intro i hi
  have hi' : i < j := List.mem_range.mp hi
  have hm : 0 < mx := by omega
  have hpos : (head + j) % mx < mx := Nat.mod_lt _ hm
  have hidx : ((head + j) % mx + (mx - j + i)) % mx = (head + i) % mx := by
    rw [Nat.mod_add_mod]
    have h1 : head + j + (mx - j + i) = head + i + mx := by omega
    rw [h1, Nat.add_mod_right]
  rw [← hidx,
    shiftDown_getD mx r buf ((head + j) % mx) (mx - j + i) hlen hpos (by omega) (by omega),
    if_neg (by omega)]

/-- Helper: a removed message fails the `keepMsg` filter. -/
theorem keepMsg_false (pid : Nat) (m : Msg)
    (h : m.sender = pid ∨ m.receiver = pid) : ¬ keepMsg pid m = true := by
  simp [keepMsg]
  omega

/-- Helper: a surviving message passes the `keepMsg` filter. -/
theorem keepMsg_true (pid : Nat) (m : Msg)
    (h : ¬(m.sender = pid ∨ m.receiver = pid)) : keepMsg pid m = true := by
  simp [keepMsg]
  omega

/-- Helper: the removal loop of `cleanup_task_messages` computes exactly
the `keepMsg` filter of the logical queue contents, leaving the already
scanned part of the window untouched, and removes one message per unit by
which the size shrinks.  The fuel `r` is the number of unscanned
messages, `j` the number of scanned (kept) ones. -/
theorem cleanupLoop_spec (pid mx : Nat) : ∀ (r : Nat) (j : Nat) (buf : List Msg)
    (head tail hc uc removed : Nat), buf.length = mx → j + r ≤ mx → head < mx →
    window mx (cleanupLoop pid mx buf ((head + j) % mx) (j + r) tail hc uc removed r).buf head
        (cleanupLoop pid mx buf ((head + j) % mx) (j + r) tail hc uc removed r).size =
      window mx buf head j ++ (window mx buf ((head + j) % mx) r).filter (keepMsg pid) ∧
    (cleanupLoop pid mx buf ((head + j) % mx) (j + r) tail hc uc removed r).size +
        (cleanupLoop pid mx buf ((head + j) % mx) (j + r) tail hc uc removed r).removed =
      j + r + removed := by
  intro r
  induction r with
  | zero =>
    intro j buf head tail hc uc removed hlen hjr hh
    simp only [cleanupLoop, Nat.add_zero]
    constructor
    · simp [window_zero]
    · trivial
  | succ r ih =>
    intro j buf head tail hc uc removed hlen hjr hh
    have hm : 0 < mx := by omega
    have hpos : (head + j) % mx < mx := Nat.mod_lt _ hm
    simp only [cleanupLoop]
    by_cases hmatch : (buf.getD ((head + j) % mx) default).sender = pid ∨
        (buf.getD ((head + j) % mx) default).receiver = pid
    · rw [if_pos hmatch]
      have hbuf' : (if r > 0 then shiftDown mx buf ((head + j) % mx) r else buf) =
          shiftDown mx buf ((head + j) % mx) r := by
        rcases r with _ | r'
        · rfl
        · rw [if_pos (by omega)]
      rw [hbuf']
      have hsz : j + (r + 1) - 1 = j + r := by omega
      rw [hsz]
      have hlen' : (shiftDown mx buf ((head + j) % mx) r).length = mx := by
        rw [shiftDown_length]
        exact hlen
      obtain ⟨ihw, ihs⟩ := ih j (shiftDown mx buf ((head + j) % mx) r) head
        (if tail > 0 then tail - 1 else mx - 1)
        (if ((shiftDown mx buf ((head + j) % mx) r).getD ((head + j) % mx) default).priority =
            MSG_PRIORITY_HIGH then hc - 1 else hc)
        (if ((shiftDown mx buf ((head + j) % mx) r).getD ((head + j) % mx) default).priority ≠
              MSG_PRIORITY_HIGH ∧
            ((shiftDown mx buf ((head + j) % mx) r).getD ((head + j) % mx) default).priority =
              MSG_PRIORITY_URGENT then uc - 1 else uc)
        (removed + 1) hlen' (by omega) hh
      constructor
      · rw [ihw, shiftDown_window_out mx buf head j r hlen hh (by omega),
          shiftDown_window_in mx buf ((head + j) % mx) r hlen hpos (by omega),
          window_succ, Nat.mod_eq_of_lt hpos,
          List.filter_cons_of_neg (keepMsg_false pid _ hmatch)]
      · omega
    · rw [if_neg hmatch]
      have hpos' : ((head + j) % mx + 1) % mx = (head + (j + 1)) % mx := by
        rw [Nat.mod_add_mod, Nat.add_assoc]
      have hsz : j + (r + 1) = (j + 1) + r := by omega
      rw [hpos', hsz]
      obtain ⟨ihw, ihs⟩ := ih (j + 1) buf head tail hc uc removed hlen (by omega) hh
      constructor
      · rw [ihw, window_succ_right mx buf head j, window_succ, Nat.mod_eq_of_lt hpos,
          List.filter_cons_of_pos (keepMsg_true pid _ hmatch),
          window_congr mx buf ((head + (j + 1)) % mx) ((head + j) % mx + 1) r
            (by rw [Nat.mod_mod_of_dvd _ dvd_rfl, hpos'])]
        simp
      · omega

/-- C6: after `cleanup_task_messages pid`, the cleaned queue is in the
registry's image; no surviving message has `sender = pid` or
`receiver = pid`; the survivors are exactly the `keepMsg` filter of the
old contents, in their old relative order; and (given the queue was
quiescent, i.e. its semaphores matched its fill level) the used-slots
semaphore equals `current_size` and the free-slots semaphore equals
`max_size - current_size`.  The message-queue counting semaphore itself
is modelled from the spec (see `QSem`), since `semaphore_init` has no
implementation under src/. -/
theorem C6_cleanup_task_messages (pid : Nat) (qs : List MessageQueue) (q : MessageQueue)
    (hpid : 0 < pid) (hq : q ∈ qs) (hwf : QueueWF q)
    (hmv : q.msg_available.value = (q.current_size : Int))
    (hsv : q.space_available.value = ((q.max_size - q.current_size : Nat) : Int)) :
    cleanup_task_messages_queue pid q ∈ cleanup_task_messages pid qs ∧
    queueContents (cleanup_task_messages_queue pid q) =
      (queueContents q).filter (keepMsg pid) ∧
    (∀ msg ∈ queueContents (cleanup_task_messages_queue pid q),
        msg.sender ≠ pid ∧ msg.receiver ≠ pid) ∧
    (cleanup_task_messages_queue pid q).msg_available.value =
      ((cleanup_task_messages_queue pid q).current_size : Int) ∧
    (cleanup_task_messages_queue pid q).space_available.value =
      (((cleanup_task_messages_queue pid q).max_size -
          (cleanup_task_messages_queue pid q).current_size : Nat) : Int) := by
  obtain ⟨hlen, hsize, hhead⟩ := hwf
  have hmem : cleanup_task_messages_queue pid q ∈ cleanup_task_messages pid qs := by
    unfold cleanup_task_messages
    rw [if_neg (by omega)]
    exact List.mem_map_of_mem _ hq
  have hspec := cleanupLoop_spec pid q.max_size q.current_size 0 q.messages q.head q.tail
    q.high_priority_count q.urgent_priority_count 0 hlen (by omega) hhead
  rw [Nat.add_zero, Nat.zero_add, Nat.mod_eq_of_lt hhead] at hspec
  obtain ⟨hwin, hcount⟩ := hspec
  rw [window_zero, List.nil_append] at hwin
  have hcontents : queueContents (cleanup_task_messages_queue pid q) =
      (queueContents q).filter (keepMsg pid) := by
    unfold cleanup_task_messages_queue queueContents
    by_cases hrem :
        (cleanupLoop pid q.max_size q.messages q.head q.current_size q.tail
          q.high_priority_count q.urgent_priority_count 0 q.current_size).removed > 0
    · rw [if_pos hrem]
      exact hwin
    · rw [if_neg hrem]
      exact hwin
  refine ⟨hmem, hcontents, ?_, ?_, ?_⟩
  · intro msg hmsg
    rw [hcontents] at hmsg
    have h2 := (List.mem_filter.mp hmsg).2
    simp [keepMsg] at h2
    omega
  · unfold cleanup_task_messages_queue
    by_cases hrem :
        (cleanupLoop pid q.max_size q.messages q.head q.current_size q.tail
          q.high_priority_count q.urgent_priority_count 0 q.current_size).removed > 0
    · rw [if_pos hrem]
      rfl
    · rw [if_neg hrem]
      dsimp only
      rw [hmv]
      congr 1
      omega
  · unfold cleanup_task_messages_queue
    by_cases hrem :
        (cleanupLoop pid q.max_size q.messages q.head q.current_size q.tail
          q.high_priority_count q.urgent_priority_count 0 q.current_size).removed > 0
    · rw [if_pos hrem]
      rfl
    · rw [if_neg hrem]
      dsimp only
      rw [hsv]
      congr 2
      omega

/-- C6 witness: the theorem evaluated on the repository test's seed, a
queue of five Normal messages with senders 100..104 and `pid = 102`. -/
theorem C6_cleanup_task_messages_witness :
    (0 < 102 ∧ qC6 ∈ [qC6] ∧ QueueWF qC6 ∧
      qC6.msg_available.value = (qC6.current_size : Int) ∧
      qC6.space_available.value = ((qC6.max_size - qC6.current_size : Nat) : Int)) ∧
    (cleanup_task_messages_queue 102 qC6 ∈ cleanup_task_messages 102 [qC6] ∧
      queueContents (cleanup_task_messages_queue 102 qC6) =
        (queueContents qC6).filter (keepMsg 102) ∧
      (∀ msg ∈ queueContents (cleanup_task_messages_queue 102 qC6),
          msg.sender ≠ 102 ∧ msg.receiver ≠ 102) ∧
      (cleanup_task_messages_queue 102 qC6).msg_available.value =
        ((cleanup_task_messages_queue 102 qC6).current_size : Int) ∧
      (cleanup_task_messages_queue 102 qC6).space_available.value =
        (((cleanup_task_messages_queue 102 qC6).max_size -
            (cleanup_task_messages_queue 102 qC6).current_size : Nat) : Int)) :=
  ⟨⟨by decide, by simp, by decide, by decide, by decide⟩,
   C6_cleanup_task_messages 102 [qC6] qC6 (by decide) (by simp) (by decide)
     (by decide) (by decide)⟩

end EdgeX
